import Mathlib

/-!
Verification of the InterviewForge orchestration core.

This file is a shallow embedding, in Lean 4, of the Python sources of the
InterviewForge repository:

* `src/tools.py` / the LLM wrapper: the external text capability is modelled as
  a function `llm : String → Option String` from the prompt to either a
  response or the absence signal (`llm_call` returning `None`).  The `system`
  tag of `llm_call` is ignored by the model: the six agents build pairwise
  distinct prompts, so the prompt alone determines the call site.
* `src/agents.py`: the six stage agents (`ResumeAgent`, `RoundGeneratorAgent`,
  `InterviewAgent`, `CritiqueAgent`, `StudyPlanAgent`, `EmailAgent`).
* `src/pipeline.py`: `Orchestrator.run`, the end-to-end pipeline.
* `src/memory.py`: `MemoryBank` (init / `save_run` / `list_runs`).
* `src/interviewforge.py`: the scaffold (`InMemorySession`,
  `OrchestratorAgent._restore_checkpoint`, `InterviewAgent.conduct`, and the
  scaffold's own `MemoryBank`).

Python dynamic values are embedded as `PyVal`; Python `dict`s keep insertion
order and have unique keys (item assignment replaces in place, as in CPython).
Code that can raise is embedded in `Except PyErr _`; the error constructors
name the Python exception class the corresponding source line raises.
`json.loads` (Python stdlib, external to the repository) is modelled by an
executable recursive-descent decoder over the JSON grammar this program uses
(null/true/false, integers, strings with the common escapes, arrays, objects);
numeric fractions and `\u` escapes are not modelled, and no claim depends on
them.  `time.time()` and the millisecond clock are explicit integer
parameters.  On-disk files are modelled at the codec level:
`Option (Option PyVal)` is missing / present-but-unparseable /
present-and-parsing-to-a-value, with `json.dumps` ∘ `json.loads` as the
(external, stdlib) store-file codec.
-/

mutual

/-- Dynamic Python value, as produced by the program: `None`, booleans,
integers, strings, lists, and string-keyed dicts (insertion order kept). -/
inductive PyVal where
  | none : PyVal
  | bool : Bool → PyVal
  | int : Int → PyVal
  | str : String → PyVal
  | list : PyList → PyVal
  | dict : PyDict → PyVal

/-- A Python list of `PyVal`s. -/
inductive PyList where
  | nil : PyList
  | cons : PyVal → PyList → PyList

/-- A Python dict: ordered bindings of string keys to values. -/
inductive PyDict where
  | nil : PyDict
  | cons : String → PyVal → PyDict → PyDict

end

/-- Python exception classes raised by the embedded code paths. -/
inductive PyErr where
  | attributeError : PyErr
  | typeError : PyErr
  | keyError : PyErr
  | jsonDecodeError : PyErr
  | persistenceError : PyErr
deriving DecidableEq

/-- Build a `PyDict` from ordered key/value pairs. -/
def PyDict.ofAssoc : List (String × PyVal) → PyDict
  | [] => PyDict.nil
  | (k, v) :: rest => PyDict.cons k v (PyDict.ofAssoc rest)

/-- The ordered key/value pairs of a `PyDict`. -/
def PyDict.toAssoc : PyDict → List (String × PyVal)
  | PyDict.nil => []
  | PyDict.cons k v rest => (k, v) :: PyDict.toAssoc rest

/-- Build a `PyList` from a Lean list. -/
def PyList.ofList : List PyVal → PyList
  | [] => PyList.nil
  | v :: rest => PyList.cons v (PyList.ofList rest)

/-- The elements of a `PyList` as a Lean list. -/
def PyList.toList : PyList → List PyVal
  | PyList.nil => []
  | PyList.cons v rest => v :: PyList.toList rest

/-- Number of entries of a `PyDict` (`len(d)`). -/
def PyDict.size : PyDict → Nat
  | PyDict.nil => 0
  | PyDict.cons _ _ rest => PyDict.size rest + 1

/-- Dict literal helper: `pdict [(k, v), ...]`. -/
def pdict (l : List (String × PyVal)) : PyVal := PyVal.dict (PyDict.ofAssoc l)

/-- List literal helper: `plist [v, ...]`. -/
def plist (l : List PyVal) : PyVal := PyVal.list (PyList.ofList l)

/-- `d[key]` lookup on a Python dict (keys are unique). -/
def dictGet : PyDict → String → Option PyVal
  | PyDict.nil, _ => Option.none
  | PyDict.cons k v rest, key => if k = key then some v else dictGet rest key

/-- `d[key] = val`: replace in place if the key exists (keeping its position),
otherwise append at the end. -/
def dictSet : PyDict → String → PyVal → PyDict
  | PyDict.nil, key, val => PyDict.cons key val PyDict.nil
  | PyDict.cons k v rest, key, val =>
      if k = key then PyDict.cons k val rest else PyDict.cons k v (dictSet rest key val)

/-- `d.setdefault(key, val)`: insert at the end only when the key is absent. -/
def dictSetdefault (d : PyDict) (key : String) (val : PyVal) : PyDict :=
  match dictGet d key with
  | some _ => d
  | Option.none =>
    match d with
    | PyDict.nil => PyDict.cons key val PyDict.nil
    | PyDict.cons k v rest => PyDict.cons k v (dictSetdefault rest key val)

/-- Field lookup on a `PyVal` that should be a dict; `Option.none` when the
key is absent or the value is not a dict. -/
def pvGet (v : PyVal) (key : String) : Option PyVal :=
  match v with
  | PyVal.dict d => dictGet d key
  | _ => Option.none

/-- The single-quote character (`chr 39`), used by Python `repr` of strings. -/
def pq : String := String.singleton (Char.ofNat 39)

/-- The double-quote character (`chr 34`), the JSON string delimiter. -/
def dquote : Char := Char.ofNat 34

/-- The backslash character (`chr 92`), the JSON escape introducer. -/
def bslash : Char := Char.ofNat 92

mutual

/-- Python `repr`.  String escaping inside `repr` is not modelled: every
string this program passes through `repr`/`str` is plain printable ASCII
without quotes. -/
def pyRepr : PyVal → String
  | PyVal.none => "None"
  | PyVal.bool b => if b then "True" else "False"
  | PyVal.int n => toString n
  | PyVal.str s => pq ++ s ++ pq
  | PyVal.list l => "[" ++ pyReprItems l ++ "]"
  | PyVal.dict d => "\x7b" ++ pyReprEntries d ++ "\x7d"

/-- Comma-separated `repr`s of a list's elements. -/
def pyReprItems : PyList → String
  | PyList.nil => ""
  | PyList.cons v PyList.nil => pyRepr v
  | PyList.cons v rest => pyRepr v ++ ", " ++ pyReprItems rest

/-- Comma-separated `repr`s of a dict's entries. -/
def pyReprEntries : PyDict → String
  | PyDict.nil => ""
  | PyDict.cons k v PyDict.nil => pq ++ k ++ pq ++ ": " ++ pyRepr v
  | PyDict.cons k v rest => pq ++ k ++ pq ++ ": " ++ pyRepr v ++ ", " ++ pyReprEntries rest

end

/-- Python `str(v)`: the string itself for strings, `repr` otherwise. -/
def pyStr (v : PyVal) : String :=
  match v with
  | PyVal.str s => s
  | _ => pyRepr v

/-- `safe_text(x, default)` from `src/pipeline.py`: `default` for `None`,
strings unchanged, anything else through `str`. -/
def safe_text (x : PyVal) (default : String) : String :=
  match x with
  | PyVal.none => default
  | PyVal.str s => s
  | v => pyStr v

/-- Python `for _ in v`: lists yield elements, strings their characters,
dicts their keys; `None`/numbers are not iterable (`TypeError`). -/
def pyIter : PyVal → Except PyErr (List PyVal)
  | PyVal.list l => Except.ok l.toList
  | PyVal.str s => Except.ok (s.data.map (fun c => PyVal.str (String.singleton c)))
  | PyVal.dict d => Except.ok (d.toAssoc.map (fun kv => PyVal.str kv.1))
  | _ => Except.error PyErr.typeError

/-- `str.lower()` (the program only lowercases ASCII text). -/
def lowerStr (s : String) : String := String.mk (s.data.map Char.toLower)

/-- Whether `needle` occurs at the start of `hay`. -/
def listHeadMatch : List Char → List Char → Bool
  | _, [] => true
  | [], _ :: _ => false
  | a :: as, b :: bss => a == b && listHeadMatch as bss

/-- Python `needle in hay` on strings: substring containment. -/
def listContainsSub : List Char → List Char → Bool
  | [], needle => needle.isEmpty
  | c :: t, needle => listHeadMatch (c :: t) needle || listContainsSub t needle

/-- Python `needle in hay` on `String`s. -/
def strContains (hay needle : String) : Bool := listContainsSub hay.data needle.data

/-- Whether `head` is a prefix of the string `s` (used to route prompts in
concrete capability oracles). -/
def strHeadMatch (s head : String) : Bool := listHeadMatch s.data head.data

/-- Join strings with a separator (`sep.join(xs)` in Python). -/
def joinWith (sep : String) : List String → String
  | [] => ""
  | [s] => s
  | s :: rest => s ++ sep ++ joinWith sep rest

/-- `int(ds)` on a nonempty string of ASCII digits. -/
def digitsToInt (ds : List Char) : Int :=
  Int.ofNat (ds.foldl (fun acc c => acc * 10 + (c.toNat - 48)) 0)

/-- Python `s[:n]` on strings. -/
def strTake (s : String) (n : Nat) : String := String.mk (s.data.take n)

/-! ### `json.loads` (Python stdlib, modelled): recursive descent with fuel -/

/-- Skip JSON whitespace. -/
def jsonSkipWs : List Char → List Char
  | c :: t => if c == ' ' || c == '\n' || c == '\t' || c == '\r' then jsonSkipWs t else c :: t
  | [] => []

/-- One JSON string escape (`\" \\ \/ \n \t \r \b \f`); other escapes are not
modelled and make the decode fail (the program never feeds them). -/
def jsonEsc (c : Char) : Option Char :=
  if c == dquote then some dquote
  else if c == bslash then some bslash
  else if c == '/' then some '/'
  else if c == 'n' then some '\n'
  else if c == 't' then some '\t'
  else if c == 'r' then some '\r'
  else if c == 'b' then some (Char.ofNat 8)
  else if c == 'f' then some (Char.ofNat 12)
  else Option.none

/-- Body of a JSON string literal, after the opening quote. -/
def jsonStrBody : List Char → Option (String × List Char)
  | [] => Option.none
  | c :: t =>
    if c == dquote then some ("", t)
    else if c == bslash then
      match t with
      | [] => Option.none
      | e :: t2 =>
        match jsonEsc e, jsonStrBody t2 with
        | some ch, some (s, r) => some (String.singleton ch ++ s, r)
        | _, _ => Option.none
    else
      match jsonStrBody t with
      | some (s, r) => some (String.singleton c ++ s, r)
      | Option.none => Option.none

/-- Longest digit run at the head of the input. -/
def jsonDigits : List Char → List Char × List Char
  | [] => ([], [])
  | c :: t =>
    if c.isDigit then
      match jsonDigits t with
      | (ds, r) => (c :: ds, r)
    else ([], c :: t)

mutual

/-- One JSON value (integers only; a fraction or exponent makes the decode
fail, which no code path of this repository exercises). -/
def jsonVal : Nat → List Char → Option (PyVal × List Char)
  | 0, _ => Option.none
  | Nat.succ fuel, l =>
    match jsonSkipWs l with
    | [] => Option.none
    | c :: t =>
      if c == dquote then
        match jsonStrBody t with
        | some (s, r) => some (PyVal.str s, r)
        | Option.none => Option.none
      else if c == '[' then
        match jsonSkipWs t with
        | ']' :: r => some (plist [], r)
        | r =>
          match jsonItems fuel r with
          | some (vs, r2) => some (PyVal.list (PyList.ofList vs), r2)
          | Option.none => Option.none
      else if c == '\x7b' then
        match jsonSkipWs t with
        | c2 :: r2 =>
          if c2 == '\x7d' then some (pdict [], r2)
          else
            match jsonMembers fuel (c2 :: r2) with
            | some (d, r3) => some (PyVal.dict (PyDict.ofAssoc d), r3)
            | Option.none => Option.none
        | [] => Option.none
      else if c == 'n' then
        match t with
        | 'u' :: 'l' :: 'l' :: r => some (PyVal.none, r)
        | _ => Option.none
      else if c == 't' then
        match t with
        | 'r' :: 'u' :: 'e' :: r => some (PyVal.bool true, r)
        | _ => Option.none
      else if c == 'f' then
        match t with
        | 'a' :: 'l' :: 's' :: 'e' :: r => some (PyVal.bool false, r)
        | _ => Option.none
      else if c == '-' then
        match jsonDigits t with
        | ([], _) => Option.none
        | (ds, r) => some (PyVal.int (-(digitsToInt ds)), r)
      else if c.isDigit then
        match jsonDigits (c :: t) with
        | (ds, r) => some (PyVal.int (digitsToInt ds), r)
      else Option.none

/-- Comma-separated JSON array items, ending at `]`. -/
def jsonItems : Nat → List Char → Option (List PyVal × List Char)
  | 0, _ => Option.none
  | Nat.succ fuel, l =>
    match jsonVal fuel l with
    | some (v, r) =>
      match jsonSkipWs r with
      | ',' :: t => match jsonItems fuel t with
                    | some (vs, r2) => some (v :: vs, r2)
                    | Option.none => Option.none
      | ']' :: t => some ([v], t)
      | _ => Option.none
    | Option.none => Option.none

/-- Comma-separated JSON object members, ending at the closing brace.
(Python's decoder lets a later duplicate key overwrite an earlier one; the
model keeps the first binding instead — no JSON this program decodes has
duplicate keys.) -/
def jsonMembers : Nat → List Char → Option (List (String × PyVal) × List Char)
  | 0, _ => Option.none
  | Nat.succ fuel, l =>
    match jsonSkipWs l with
    | c :: t =>
      if c == dquote then
        match jsonStrBody t with
        | some (k, r) =>
          match jsonSkipWs r with
          | ':' :: r2 =>
            match jsonVal fuel r2 with
            | some (v, r3) =>
              match jsonSkipWs r3 with
              | ',' :: t2 => match jsonMembers fuel t2 with
                             | some (d, r4) => some ((k, v) :: d, r4)
                             | Option.none => Option.none
              | c3 :: t3 => if c3 == '\x7d' then some ([(k, v)], t3) else Option.none
              | [] => Option.none
            | Option.none => Option.none
          | _ => Option.none
        | Option.none => Option.none
      else Option.none
    | [] => Option.none

end

/-- `json.loads(s)`: decode one JSON document with nothing but whitespace
after it; `Option.none` is `json.JSONDecodeError`. -/
def json_loads (s : String) : Option PyVal :=
  match jsonVal (s.length + 1) s.data with
  | some (v, r) => match jsonSkipWs r with
                   | [] => some v
                   | _ :: _ => Option.none
  | Option.none => Option.none

example : json_loads "[]" = some (plist []) := rfl
example : json_loads "" = Option.none := rfl
example : json_loads " \x7b \x22a\x22 : [1, null] \x7d " =
    some (pdict [("a", plist [PyVal.int 1, PyVal.none])]) := rfl
example : pyRepr (pdict [("raw", PyVal.none), ("feedback", PyVal.str "ok")]) =
    "\x7b" ++ pq ++ "raw" ++ pq ++ ": None, " ++ pq ++ "feedback" ++ pq ++ ": " ++ pq ++ "ok" ++ pq ++ "\x7d" := rfl

/-! ### `src/agents.py`: the six stage agents

Each agent takes the external capability `llm : String → Option String` and
builds exactly the prompt of the Python f-string at its call site. -/

namespace Agents

/-- The prompt of `ResumeAgent.parse`. -/
def resumePrompt (resume_text : String) : String :=
  "Extract structured fields from this resume text (JSON):\n\n" ++ resume_text

/-- `ResumeAgent.parse` (`src/agents.py` 25-38): absent capability yields
`{"raw": None, "text_preview": resume_text[:300]}`; a response is decoded with
`json.loads`, and a decode failure yields
`{"raw": resp, "text_preview": resume_text[:300]}`. -/
def ResumeAgent.parse (llm : String → Option String) (resume_text : String) : PyVal :=
  match llm (resumePrompt resume_text) with
  | Option.none =>
      pdict [("raw", PyVal.none), ("text_preview", PyVal.str (strTake resume_text 300))]
  | some resp =>
      match json_loads resp with
      | some parsed => parsed
      | Option.none =>
          pdict [("raw", PyVal.str resp), ("text_preview", PyVal.str (strTake resume_text 300))]

/-- The prompt of `RoundGeneratorAgent.generate` (the f-string interpolates
`str(parsed_resume)`). -/
def roundGenPrompt (parsed_resume : PyDict) (role : String) : String :=
  "Generate interview rounds for role " ++ pq ++ role ++ pq ++
    " given this resume: " ++ pyStr (PyVal.dict parsed_resume) ++
    ". Return JSON with rounds and questions."

/-- The fallback rounds structure of `RoundGeneratorAgent.generate`. -/
def roundsFallback : PyVal :=
  pdict [("Round 1", pdict [("name", PyVal.str "Technical"),
                            ("questions", plist [PyVal.str "Describe project X."])])]

/-- `RoundGeneratorAgent.generate` (`src/agents.py` 44-56): absent capability
or a `json.loads` failure yields `roundsFallback`; a successful decode is
returned as-is (whatever JSON shape it has). -/
def RoundGeneratorAgent.generate (llm : String → Option String)
    (parsed_resume : PyDict) (role : String) : PyVal :=
  match llm (roundGenPrompt parsed_resume role) with
  | Option.none => roundsFallback
  | some resp =>
      match json_loads resp with
      | some v => v
      | Option.none => roundsFallback

/-- `InterviewAgent.run_round` (`src/agents.py` 61-76): one `(question,
answer)` pair per question, in order.  The answer source — `input()` in
interactive mode, the canned `f"Demo answer for: {q}"` in demo mode — is
abstracted as `getAnswer round_name str(q)`; `demoAnswer` below is the demo
instance.  The question is stored as-is (any `PyVal`). -/
def InterviewAgent.run_round (getAnswer : String → String → String)
    (round_name : String) (questions : List PyVal) : List (PyVal × String) :=
  questions.map (fun q => (q, getAnswer round_name (pyStr q)))

/-- Demo-mode answers: `f"Demo answer for: {q}"`. -/
def demoAnswer : String → String → String := fun _ q => "Demo answer for: " ++ q

/-- The prompt of `CritiqueAgent.critique`. -/
def critiquePrompt (question answer : String) (resume_profile : PyVal) : String :=
  "Critique this answer to the question. Provide a numeric score (1-10) and short actionable feedback.\n" ++
    "Question: " ++ question ++ "\nAnswer: " ++ answer ++ "\nResumeProfile: " ++
    pyStr resume_profile

/-- `CritiqueAgent.critique` (`src/agents.py` 83-117): absent capability yields
`{"raw": None, "score": None, "feedback": "No critique generated."}`.
Otherwise `out = {"raw": resp}`; if `"score"` occurs in `resp.lower()`, the
score is `int(digits[:2])` where `digits` is the concatenation of every digit
character of `resp` (or `None` when there are none); otherwise the score is
`None`.  (The `try`/`except` around `int` cannot fire on ASCII digits, which
is all `str.isdigit` accepts here.)  Note the success path stores no
`"feedback"` key. -/
def CritiqueAgent.critique (llm : String → Option String)
    (question answer : String) (resume_profile : PyVal) : PyDict :=
  match llm (critiquePrompt question answer resume_profile) with
  | Option.none =>
      PyDict.ofAssoc [("raw", PyVal.none), ("score", PyVal.none),
                      ("feedback", PyVal.str "No critique generated.")]
  | some resp =>
      let out := PyDict.ofAssoc [("raw", PyVal.str resp)]
      let low := lowerStr resp
      if strContains low "score" then
        match resp.data.filter Char.isDigit with
        | [] => dictSet out "score" PyVal.none
        | ds => dictSet out "score" (PyVal.int (digitsToInt (ds.take 2)))
      else dictSet out "score" PyVal.none

/-- The prompt of `StudyPlanAgent.create_plan_and_flashcards` (interpolating
`str(critiques)`). -/
def studyPrompt (critiques : PyVal) : String :=
  "Given these critiques: " ++ pyStr critiques ++
    ", produce a 7-day prioritized study plan and 10 flashcards (JSON)."

/-- Fallback when the study capability is absent. -/
def studyAbsentFallback : PyVal :=
  pdict [("study_plan", PyVal.str "Practice key weaknesses identified in critiques."),
         ("flashcards", plist [])]

/-- Fallback when the study response fails to decode. -/
def studyDecodeFallback : PyVal :=
  pdict [("study_plan", PyVal.str "Week 1: practice arrays; Week 2: system design"),
         ("flashcards",
          plist [pdict [("q", PyVal.str "What is idempotency?"),
                        ("a", PyVal.str "An operation that can be applied multiple times without changing the result.")]])]

/-- `StudyPlanAgent.create_plan_and_flashcards` (`src/agents.py` 123-144). -/
def StudyPlanAgent.create_plan_and_flashcards (llm : String → Option String)
    (critiques : PyVal) : PyVal :=
  match llm (studyPrompt critiques) with
  | Option.none => studyAbsentFallback
  | some resp =>
      match json_loads resp with
      | some v => v
      | Option.none => studyDecodeFallback

/-- The prompt of `EmailAgent.draft` (interpolating `str(name)`). -/
def emailPrompt (name : PyVal) (role summary : String) : String :=
  "Draft a professional follow-up email for " ++ pyStr name ++
    " after a mock interview for " ++ role ++ ". Include summary: " ++ summary

/-- `EmailAgent.draft` (`src/agents.py` 150-160): the response text, or a
templated fallback when the capability is absent. -/
def EmailAgent.draft (llm : String → Option String) (name : PyVal)
    (role summary : String) : String :=
  match llm (emailPrompt name role summary) with
  | Option.none =>
      "Hello,\n\nThank you for the interview for the " ++ role ++
        " position.\n\nRegards,\n" ++ pyStr name
  | some resp => resp

end Agents

/-! ### `src/memory.py`: `MemoryBank` -/

namespace Memory

/-- The in-memory state of `src/memory.py`'s `MemoryBank` together with its
store file, at the codec level: `file = Option.none` is a missing file,
`some Option.none` a present file that `json.loads` rejects, `some (some v)` a
present file whose contents parse to `v`. -/
structure MemoryBank where
  data : PyVal
  file : Option (Option PyVal)

/-- The fresh store contents `{"runs": []}`. -/
def emptyData : PyVal := pdict [("runs", plist [])]

/-- `MemoryBank.__init__` (`src/memory.py` 16-24): read the store file if
present; a parse failure falls back to `{"runs": []}` under `try`/`except`
(the corrupt file itself is left on disk untouched); a missing file also
yields `{"runs": []}`.  Construction is total. -/
def MemoryBank.init (file : Option (Option PyVal)) : MemoryBank :=
  match file with
  | Option.none => { data := emptyData, file := Option.none }
  | some Option.none => { data := emptyData, file := some Option.none }
  | some (some v) => { data := v, file := some (some v) }

/-- `MemoryBank.save_run` (`src/memory.py` 26-29):
`run["timestamp"] = time.time()` (in-place on the caller's dict — the first
component of the result is that mutated dict), append it to `_data["runs"]`,
and rewrite the store file with the full `json.dumps(self._data)`.  A non-dict
`run` raises `TypeError` at the item assignment; `_data` without a
subscriptable dict shape raises at `self._data["runs"]`.  (`write_text` can
also raise a disk failure — `PyErr.persistenceError` — which is external to
this model; the model's disk always accepts the write.) -/
def MemoryBank.save_run (mb : MemoryBank) (run : PyVal) (now : Int) :
    Except PyErr (PyVal × MemoryBank) :=
  match run with
  | PyVal.dict d =>
      let stamped := PyVal.dict (dictSet d "timestamp" (PyVal.int now))
      match mb.data with
      | PyVal.dict dd =>
          match dictGet dd "runs" with
          | some (PyVal.list rs) =>
              let data2 := PyVal.dict (dictSet dd "runs"
                (PyVal.list (PyList.ofList (rs.toList ++ [stamped]))))
              Except.ok (stamped, { data := data2, file := some (some data2) })
          | some _ => Except.error PyErr.attributeError
          | Option.none => Except.error PyErr.keyError
      | _ => Except.error PyErr.typeError
  | _ => Except.error PyErr.typeError

/-- `MemoryBank.list_runs` (`src/memory.py` 31-32): `self._data.get("runs", [])`,
no I/O.  Raises `AttributeError` when `_data` is not a dict. -/
def MemoryBank.list_runs (mb : MemoryBank) : Except PyErr PyVal :=
  match mb.data with
  | PyVal.dict dd => Except.ok ((dictGet dd "runs").getD (plist []))
  | _ => Except.error PyErr.attributeError

end Memory

/-! ### `src/pipeline.py`: `Orchestrator.run`

The run is split into the stage steps of the Python method body, in source
order; `Orchestrator.run` chains them.  `getAnswer` abstracts the interview
answer source exactly as in `InterviewAgent.run_round`; `now` is the
`time.time()` value observed by the final `MemoryBank.save_run`. -/

namespace Pipeline

/-- Steps 1-2 of `Orchestrator.run` (`src/pipeline.py` 52-65): call
`ResumeAgent.parse`; a string result is re-decoded with `json.loads` (falling
back to `{"raw_output": safe_text(profile_raw)}`); then
`profile.setdefault("name", "Candidate")`.  `setdefault` on a non-dict raises
`AttributeError`. -/
def profileStep (llm : String → Option String) (resume_text : String) :
    Except PyErr PyDict :=
  let profile_raw := Agents.ResumeAgent.parse llm resume_text
  let profile : PyVal :=
    match profile_raw with
    | PyVal.str s =>
        match json_loads s with
        | some v => v
        | Option.none => pdict [("raw_output", PyVal.str (safe_text profile_raw ""))]
    | v => v
  match profile with
  | PyVal.dict d => Except.ok (dictSetdefault d "name" (PyVal.str "Candidate"))
  | _ => Except.error PyErr.attributeError

/-- Step 2 of `Orchestrator.run` (`src/pipeline.py` 68-81): call
`RoundGeneratorAgent.generate`; a string result is re-decoded with
`json.loads`, falling back to `{"Round 1": {"name": "General",
"questions": []}}`.  Total: any decoded shape is passed along unchecked. -/
def roundsStep (llm : String → Option String) (profile : PyDict) (role : String) : PyVal :=
  match Agents.RoundGeneratorAgent.generate llm profile role with
  | PyVal.str s =>
      match json_loads s with
      | some v => v
      | Option.none => pdict [("Round 1", pdict [("name", PyVal.str "General"),
                                                 ("questions", plist [])])]
  | v => v

/-- Step 3's per-round body (`src/pipeline.py` 87-103): `r_info.get("name",
r_key)` and `r_info.get("questions", [])` need `r_info` to be a dict
(`AttributeError` otherwise); iterating the questions value follows Python
iteration; each produced pair is then normalised with `safe_text` so both
components are strings. -/
def roundStep (getAnswer : String → String → String) (r_key : String) (r_info : PyVal) :
    Except PyErr (List (String × String)) :=
  match r_info with
  | PyVal.dict ri =>
      let round_name : PyVal := (dictGet ri "name").getD (PyVal.str r_key)
      let questions : PyVal := (dictGet ri "questions").getD (plist [])
      match pyIter questions with
      | Except.ok qs =>
          Except.ok ((Agents.InterviewAgent.run_round getAnswer (pyStr round_name) qs).map
            (fun p => (safe_text p.1 "", p.2)))
      | Except.error e => Except.error e
  | _ => Except.error PyErr.attributeError

/-- Step 3 of `Orchestrator.run` (`src/pipeline.py` 85-103): iterate
`rounds.items()` — an `AttributeError` when `rounds` is not a dict — and
concatenate the normalised question/answer pairs of every round into the
transcript. -/
def transcriptItems (getAnswer : String → String → String) :
    List (String × PyVal) → Except PyErr (List (String × String))
  | [] => Except.ok []
  | (r_key, r_info) :: rest =>
      match roundStep getAnswer r_key r_info with
      | Except.ok pairs =>
          match transcriptItems getAnswer rest with
          | Except.ok t => Except.ok (pairs ++ t)
          | Except.error e => Except.error e
      | Except.error e => Except.error e

/-- Step 3, entry: `rounds.items()` requires a dict. -/
def transcriptStep (getAnswer : String → String → String) (rounds : PyVal) :
    Except PyErr (List (String × String)) :=
  match rounds with
  | PyVal.dict items => transcriptItems getAnswer items.toAssoc
  | _ => Except.error PyErr.attributeError

/-- Step 4's per-entry critique text (`src/pipeline.py` 107-117):
`safe_text(critique_raw, default="No critique generated.")` applied to the
dict returned by `CritiqueAgent.critique` — i.e. `str()` of that dict. -/
def critiqueText (llm : String → Option String) (profile : PyDict)
    (qa : String × String) : String :=
  safe_text (PyVal.dict (Agents.CritiqueAgent.critique llm qa.1 qa.2 (PyVal.dict profile)))
    "No critique generated."

/-- Step 4 of `Orchestrator.run`: one `{"question", "answer", "critique"}`
record per transcript entry, in transcript order. -/
def critiquesStep (llm : String → Option String) (profile : PyDict)
    (transcript : List (String × String)) : List (String × String × String) :=
  transcript.map (fun qa => (qa.1, qa.2, critiqueText llm profile qa))


/-- The critiques value as the Python list of dicts (used by the study prompt
and by the run summary). -/
def critDictOf (c : String × String × String) : PyVal :=
  pdict [("question", PyVal.str c.1), ("answer", PyVal.str c.2.1),
         ("critique", PyVal.str c.2.2)]

/-- The critiques value as the Python list of dicts. -/
def critiquesVal (critiques : List (String × String × String)) : PyVal :=
  plist (critiques.map critDictOf)

/-- Step 5 of `Orchestrator.run` (`src/pipeline.py` 122-131): call
`StudyPlanAgent.create_plan_and_flashcards`; a string result is re-decoded
with `json.loads`, falling back to `{"raw_output": <the string>}`. -/
def studyStep (llm : String → Option String)
    (critiques : List (String × String × String)) : PyVal :=
  match Agents.StudyPlanAgent.create_plan_and_flashcards llm (critiquesVal critiques) with
  | PyVal.str s =>
      match json_loads s with
      | some v => v
      | Option.none => pdict [("raw_output", PyVal.str s)]
  | v => v

/-- Step 6 of `Orchestrator.run` (`src/pipeline.py` 136-146):
`name = profile.get("name", "Candidate")`, the critique summary text, and
`EmailAgent.draft` (then `safe_text`, the identity on the draft's string). -/
def emailStep (llm : String → Option String) (profile : PyDict) (role : String)
    (critiques : List (String × String × String)) : String :=
  let name : PyVal := (dictGet profile "name").getD (PyVal.str "Candidate")
  let summary := "Summary of critiques:\n" ++
    joinWith "\n" (critiques.map (fun c => safe_text (PyVal.str c.2.2) ""))
  Agents.EmailAgent.draft llm name role summary

/-- The transcript as the Python list of `{"question", "answer"}` dicts. -/
def qaDictOf (qa : String × String) : PyVal :=
  pdict [("question", PyVal.str qa.1), ("answer", PyVal.str qa.2)]

/-- The transcript as the Python list of `{"question", "answer"}` dicts. -/
def transcriptVal (transcript : List (String × String)) : PyVal :=
  plist (transcript.map qaDictOf)

/-- Step 7's `run_summary` dict (`src/pipeline.py` 148-158), fields in source
order.  The critiques, study and email steps are deterministic functions of
the earlier stage outputs, so the summary is determined by `(llm, profile,
role, rounds, transcript)`. -/
def summaryEntries (llm : String → Option String) (profile : PyDict) (role : String)
    (rounds : PyVal) (transcript : List (String × String)) : List (String × PyVal) :=
  let critiques := critiquesStep llm profile transcript
  [("profile", PyVal.dict profile),
   ("role", PyVal.str role),
   ("rounds", rounds),
   ("transcript", transcriptVal transcript),
   ("critiques", critiquesVal critiques),
   ("study", studyStep llm critiques),
   ("follow_up_email", PyVal.str (emailStep llm profile role critiques))]

/-- The `run_summary` value handed to `MemoryBank.save_run`. -/
def runSummary (llm : String → Option String) (profile : PyDict) (role : String)
    (rounds : PyVal) (transcript : List (String × String)) : PyVal :=
  pdict (summaryEntries llm profile role rounds transcript)

/-- `Orchestrator.run` (`src/pipeline.py` 47-166): the six stages in order,
ending in `MemoryBank.save_run` — which stamps `run_summary["timestamp"]`
in place, so the returned summary carries the timestamp.  The artifact write
to `last_run.json` is delegated to the output sink and not modelled.  The
result pairs the returned `run_summary` with the bank state after the save. -/
def Orchestrator.run (llm : String → Option String) (getAnswer : String → String → String)
    (bank : Memory.MemoryBank) (now : Int) (resume_text role : String) :
    Except PyErr (PyVal × Memory.MemoryBank) :=
  match profileStep llm resume_text with
  | Except.error e => Except.error e
  | Except.ok profile =>
      match transcriptStep getAnswer (roundsStep llm profile role) with
      | Except.error e => Except.error e
      | Except.ok transcript =>
          Memory.MemoryBank.save_run bank
            (runSummary llm profile role (roundsStep llm profile role) transcript) now

end Pipeline

/-! ### `src/interviewforge.py`: the scaffold

`InMemorySession`, `OrchestratorAgent._restore_checkpoint`,
`InterviewAgent.conduct` and the scaffold's own `MemoryBank`.  The wall clock
(`time.time()`, `TimerTool.now_ms`) is an explicit `now` parameter and the
per-question elapsed time is modelled as `0` (the two `now_ms()` reads are
adjacent in the demo path); neither claim depends on clock values. -/

namespace Forge

/-- `InMemorySession` (`src/interviewforge.py` 52-69): run-scoped mutable
state — question objects, answer strings, cursor, checkpoint snapshots. -/
structure InMemorySession where
  run_id : String
  questions : List PyVal
  answers : List String
  current_q_index : Nat
  checkpoints : List PyVal

/-- `InMemorySession.__init__`. -/
def InMemorySession.init (run_id : String) : InMemorySession :=
  { run_id := run_id, questions := [], answers := [], current_q_index := 0,
    checkpoints := [] }

/-- `InMemorySession.checkpoint` (`src/interviewforge.py` 62-69): append a
snapshot `{"time", "q_index", "questions", "answers"}` built from copies of
the current lists, and return it. -/
def InMemorySession.checkpoint (s : InMemorySession) (now : Int) :
    InMemorySession × PyVal :=
  let snap := pdict [("time", PyVal.int now),
                     ("q_index", PyVal.int (Int.ofNat s.current_q_index)),
                     ("questions", plist s.questions),
                     ("answers", plist (s.answers.map PyVal.str))]
  ({ s with checkpoints := s.checkpoints ++ [snap] }, snap)

/-- `OrchestratorAgent._restore_checkpoint` (`src/interviewforge.py` 236-243):
if `resume_answers` is truthy (present and nonempty), overwrite the session's
answers and set `current_q_index := resume_index`; if `resume_checkpoints` is
truthy, overwrite the checkpoint list.  Nothing else is touched. -/
def restore_checkpoint (s : InMemorySession) (resume_answers : Option (List String))
    (resume_index : Nat) (resume_checkpoints : Option (List PyVal)) : InMemorySession :=
  let s1 := match resume_answers with
            | some ra =>
              if ra.isEmpty then s
              else { s with answers := ra, current_q_index := resume_index }
            | Option.none => s
  match resume_checkpoints with
  | some rc => if rc.isEmpty then s1 else { s1 with checkpoints := rc }
  | Option.none => s1

/-- One entry of `conduct`'s `qa_pairs` (`{"question", "answer", "round",
"time_ms"}`). -/
structure QAPair where
  question : String
  answer : String
  round : String
  time_ms : Int

/-- One round as `conduct` consumes it: `rnd["round"]`, `rnd.get("focus", "")`
and `rnd["questions"]` (the rounds the scaffold's generator returns are a list
of such objects with string questions). -/
structure IRound where
  round : String
  focus : String
  questions : List String

/-- The per-question loop body of `InterviewAgent.conduct`
(`src/interviewforge.py` 288-308), iterated over one round's questions:
build `q_obj`, obtain the answer (interactive `input()` or the demo
`f"Demo answer to: {q}"`, abstracted as `getAns rnd.round q`), append question
and answer to the session, increment the cursor, checkpoint, and append to
`qa_pairs`. -/
def conductQs (getAns : String → String → String) (now : Int) (rnd : IRound) :
    List String → InMemorySession × List QAPair → InMemorySession × List QAPair
  | [], st => st
  | q :: rest, (s, acc) =>
      let q_obj := pdict [("round", PyVal.str rnd.round),
                          ("focus", PyVal.str rnd.focus),
                          ("question", PyVal.str q)]
      let answer := getAns rnd.round q
      let s1 := { s with questions := s.questions ++ [q_obj],
                         answers := s.answers ++ [answer],
                         current_q_index := s.current_q_index + 1 }
      let s2 := (InMemorySession.checkpoint s1 now).1
      conductQs getAns now rnd rest (s2, acc ++ [⟨q, answer, rnd.round, 0⟩])

/-- The outer loop of `InterviewAgent.conduct` over the rounds. -/
def conductRounds (getAns : String → String → String) (now : Int) :
    List IRound → InMemorySession × List QAPair → InMemorySession × List QAPair
  | [], st => st
  | rnd :: rest, st => conductRounds getAns now rest (conductQs getAns now rnd rnd.questions st)

/-- `InterviewAgent.conduct` (`src/interviewforge.py` 284-309): flatten the
rounds in order, ask every question of every round starting from the first,
and return the fresh `qa_pairs` with the final session.  (The returned dict
also carries `session_checkpoints`, available as
`(conduct ...).1.checkpoints`.) -/
def InterviewAgent.conduct (getAns : String → String → String) (now : Int)
    (session : InMemorySession) (rounds : List IRound) :
    InMemorySession × List QAPair :=
  conductRounds getAns now rounds (session, [])

/-- Demo-mode answers of the scaffold: `f"Demo answer to: {q}"`. -/
def demoAnswerTo : String → String → String := fun _ q => "Demo answer to: " ++ q

/-- The scaffold's `MemoryBank` state (`src/interviewforge.py` 36-50), with
the store file at the same codec level as `Memory.MemoryBank`. -/
structure MemoryBank where
  data : PyVal
  file : Option (Option PyVal)

/-- The scaffold's `MemoryBank.__init__` (`src/interviewforge.py` 39-44):
`json.loads(self.path.read_text())` with NO exception handling — a present
file that fails to parse raises `json.JSONDecodeError` out of the
constructor; only a missing file falls back to `{"runs": []}`. -/
def MemoryBank.init (file : Option (Option PyVal)) : Except PyErr MemoryBank :=
  match file with
  | Option.none => Except.ok { data := Memory.emptyData, file := Option.none }
  | some Option.none => Except.error PyErr.jsonDecodeError
  | some (some v) => Except.ok { data := v, file := some (some v) }

end Forge

/-! ### General lemmas about the embedded dict operations -/

theorem dictGet_dictSet_self : ∀ (d : PyDict) (k : String) (v : PyVal),
    dictGet (dictSet d k v) k = some v
  | PyDict.nil, k, v => by simp [dictSet, dictGet]
  | PyDict.cons k2 v2 rest, k, v => by
      by_cases h : k2 = k
      · simp [dictSet, dictGet, h]
      · simp [dictSet, dictGet, h, dictGet_dictSet_self rest k v]

theorem dictGet_dictSet_ne : ∀ (d : PyDict) (k : String) (v : PyVal) (k2 : String),
    k ≠ k2 → dictGet (dictSet d k v) k2 = dictGet d k2
  | PyDict.nil, k, v, k2, h => by
      simp [dictSet, dictGet, h]
  | PyDict.cons k3 v3 rest, k, v, k2, h => by
      by_cases h3 : k3 = k
      · subst h3; simp [dictSet, dictGet, h]
      · simp [dictSet, dictGet, h3, dictGet_dictSet_ne rest k v k2 h]

/-! ### Shape of a successful `Orchestrator.run` -/

/-- Any successful `Orchestrator.run` returns the `run_summary` dict of the
profile and transcript its stages produced, stamped in place with the save
timestamp. -/
theorem run_ok_shape (llm : String → Option String) (ga : String → String → String)
    (bank : Memory.MemoryBank) (now : Int) (rt role : String) (s : PyVal)
    (bank2 : Memory.MemoryBank)
    (h : Pipeline.Orchestrator.run llm ga bank now rt role = Except.ok (s, bank2)) :
    ∃ p T, Pipeline.profileStep llm rt = Except.ok p ∧
      Pipeline.transcriptStep ga (Pipeline.roundsStep llm p role) = Except.ok T ∧
      s = PyVal.dict (dictSet
            (PyDict.ofAssoc (Pipeline.summaryEntries llm p role
              (Pipeline.roundsStep llm p role) T))
            "timestamp" (PyVal.int now)) := by
  unfold Pipeline.Orchestrator.run at h
  cases hp : Pipeline.profileStep llm rt with
  | error e => simp [hp] at h
  | ok p =>
      simp only [hp] at h
      cases ht : Pipeline.transcriptStep ga (Pipeline.roundsStep llm p role) with
      | error e => simp [ht] at h
      | ok T =>
          simp only [ht] at h
          refine ⟨p, T, rfl, ht, ?_⟩
          unfold Memory.MemoryBank.save_run at h
          simp only [Pipeline.runSummary, pdict] at h
          cases hbd : bank.data with
          | dict dd =>
              simp only [hbd] at h
              cases hr : dictGet dd "runs" with
              | some v =>
                  cases v with
                  | list rs =>
                      simp only [hr, Except.ok.injEq, Prod.mk.injEq] at h
                      exact h.1.symm
                  | none => simp [hr] at h
                  | bool b => simp [hr] at h
                  | int n => simp [hr] at h
                  | str s2 => simp [hr] at h
                  | dict d2 => simp [hr] at h
              | none => simp [hr] at h
          | none => simp [hbd] at h
          | bool b => simp [hbd] at h
          | int n => simp [hbd] at h
          | str s2 => simp [hbd] at h
          | list l => simp [hbd] at h

/-! ### Concrete capability oracles and the canonical absent-capability run -/

/-- The always-absent capability: `llm_call` returns `None` at every stage. -/
def llmNone : String → Option String := fun _ => Option.none

/-- The end-to-end absent-capability run of section 8 of the spec: resume
text `"Name: Jane"`, role `"Data Scientist"`, demo answers, fresh store. -/
def demoRun : Except PyErr (PyVal × Memory.MemoryBank) :=
  Pipeline.Orchestrator.run llmNone Agents.demoAnswer
    (Memory.MemoryBank.init Option.none) 0 "Name: Jane" "Data Scientist"

/-- The summary/bank pair `demoRun` returns (it succeeds; see the claims). -/
def demoRunPair : PyVal × Memory.MemoryBank :=
  match demoRun with
  | Except.ok pr => pr
  | Except.error _ => (PyVal.none, Memory.MemoryBank.init Option.none)

example : demoRun = Except.ok (demoRunPair.1, demoRunPair.2) := rfl

/-! ### Claim C2 -/

/-- Claim C2: in any run whose rounds-stage capability call signals absence
(returns `None`), a completed `Orchestrator.run` carries a `rounds` output
that equals exactly
`{"Round 1": {"name": "Technical", "questions": ["Describe project X."]}}` —
no other keys, no other questions. -/
theorem C2_rounds_absent_exact_fallback (llm : String → Option String)
    (ga : String → String → String) (bank : Memory.MemoryBank) (now : Int)
    (rt role : String) (s : PyVal) (bank2 : Memory.MemoryBank) (p : PyDict)
    (hp : Pipeline.profileStep llm rt = Except.ok p)
    (habs : llm (Agents.roundGenPrompt p role) = Option.none)
    (h : Pipeline.Orchestrator.run llm ga bank now rt role = Except.ok (s, bank2)) :
    pvGet s "rounds" = some Agents.roundsFallback := by
  obtain ⟨p2, T, hp2, ht, hs⟩ := run_ok_shape llm ga bank now rt role s bank2 h
  rw [hp] at hp2
  injection hp2 with hpe
  subst hpe
  have hrs : Pipeline.roundsStep llm p role = Agents.roundsFallback := by
    unfold Pipeline.roundsStep Agents.RoundGeneratorAgent.generate
    rw [habs]
    rfl
  rw [hrs] at hs
  subst hs
  rfl

/-- Witness for C2: the canonical absent-capability run completes and its
`rounds` output is exactly the documented fallback. -/
theorem C2_witness : ∃ s bank2, demoRun = Except.ok (s, bank2) ∧
    pvGet s "rounds" = some Agents.roundsFallback :=
  ⟨demoRunPair.1, demoRunPair.2, rfl,
    C2_rounds_absent_exact_fallback llmNone Agents.demoAnswer
      (Memory.MemoryBank.init Option.none) 0 "Name: Jane" "Data Scientist"
      demoRunPair.1 demoRunPair.2
      (PyDict.ofAssoc [("raw", PyVal.none), ("text_preview", PyVal.str "Name: Jane"),
                       ("name", PyVal.str "Candidate")])
      rfl rfl rfl⟩

/-! ### Claim C4 -/

/-- Claim C4: at persistence time, every completed run's summary has
`len(transcript) == len(critiques)`, and the i-th critique's `question` and
`answer` fields equal the i-th transcript entry's. -/
theorem C4_transcript_critiques_aligned (llm : String → Option String)
    (ga : String → String → String) (bank : Memory.MemoryBank) (now : Int)
    (rt role : String) (s : PyVal) (bank2 : Memory.MemoryBank)
    (h : Pipeline.Orchestrator.run llm ga bank now rt role = Except.ok (s, bank2)) :
    ∃ t c : List PyVal,
      pvGet s "transcript" = some (PyVal.list (PyList.ofList t)) ∧
      pvGet s "critiques" = some (PyVal.list (PyList.ofList c)) ∧
      t.length = c.length ∧
      ∀ i, i < t.length →
        (t.get? i).bind (fun e => pvGet e "question") =
          (c.get? i).bind (fun e => pvGet e "question") ∧
        (t.get? i).bind (fun e => pvGet e "answer") =
          (c.get? i).bind (fun e => pvGet e "answer") := by
  obtain ⟨p, T, hp, ht, hs⟩ := run_ok_shape llm ga bank now rt role s bank2 h
  subst hs
  refine ⟨T.map Pipeline.qaDictOf,
          (Pipeline.critiquesStep llm p T).map Pipeline.critDictOf,
          rfl, rfl, ?_, ?_⟩
  · simp [Pipeline.critiquesStep]
  · intro i hi
    have hlt : i < T.length := by simpa using hi
    rw [List.get?_map, List.get?_map, Pipeline.critiquesStep, List.get?_map,
        List.get?_eq_get hlt]
    exact ⟨rfl, rfl⟩

/-- Witness for C4: the canonical absent-capability run completes, and its
transcript and critiques align as the claim states. -/
theorem C4_witness : ∃ s bank2, demoRun = Except.ok (s, bank2) ∧
    ∃ t c : List PyVal,
      pvGet s "transcript" = some (PyVal.list (PyList.ofList t)) ∧
      pvGet s "critiques" = some (PyVal.list (PyList.ofList c)) ∧
      t.length = c.length ∧
      ∀ i, i < t.length →
        (t.get? i).bind (fun e => pvGet e "question") =
          (c.get? i).bind (fun e => pvGet e "question") ∧
        (t.get? i).bind (fun e => pvGet e "answer") =
          (c.get? i).bind (fun e => pvGet e "answer") :=
  ⟨demoRunPair.1, demoRunPair.2, rfl,
    C4_transcript_critiques_aligned llmNone Agents.demoAnswer
      (Memory.MemoryBank.init Option.none) 0 "Name: Jane" "Data Scientist"
      demoRunPair.1 demoRunPair.2 rfl⟩

/-! ### Claim C3 -/

/-- Claim C3: from an empty `MemoryBank` (missing store file), two
`save_run` calls in sequence store exactly 2 records in call order,
`list_runs()` returns them in insertion order, and after each successful
save the store file parses to exactly the records saved so far — a complete
snapshot of the in-memory list, never a partial record. -/
theorem C3_save_run_twice_snapshot (d1 d2 : List (String × PyVal)) (t1 t2 : Int) :
    ∃ mb1 mb2 : Memory.MemoryBank,
      Memory.MemoryBank.save_run (Memory.MemoryBank.init Option.none) (pdict d1) t1 =
        Except.ok (PyVal.dict (dictSet (PyDict.ofAssoc d1) "timestamp" (PyVal.int t1)), mb1) ∧
      Memory.MemoryBank.save_run mb1 (pdict d2) t2 =
        Except.ok (PyVal.dict (dictSet (PyDict.ofAssoc d2) "timestamp" (PyVal.int t2)), mb2) ∧
      Memory.MemoryBank.list_runs mb2 =
        Except.ok (plist
          [PyVal.dict (dictSet (PyDict.ofAssoc d1) "timestamp" (PyVal.int t1)),
           PyVal.dict (dictSet (PyDict.ofAssoc d2) "timestamp" (PyVal.int t2))]) ∧
      mb1.file = some (some (pdict [("runs", plist
        [PyVal.dict (dictSet (PyDict.ofAssoc d1) "timestamp" (PyVal.int t1))])])) ∧
      mb2.file = some (some (pdict [("runs", plist
        [PyVal.dict (dictSet (PyDict.ofAssoc d1) "timestamp" (PyVal.int t1)),
         PyVal.dict (dictSet (PyDict.ofAssoc d2) "timestamp" (PyVal.int t2))])])) := by
  exact ⟨_, _, rfl, rfl, rfl, rfl, rfl⟩

/-! ### Claim C10 -/

/-- Claim C10: `save_run` overwrites the passed record's `"timestamp"` field
in place with the save time — the first component of the result is the
caller's (mutated) record object, with any caller-set timestamp replaced —
while every other field of the record, and every previously stored record
(the `rs.toList` prefix below, unchanged), is left untouched. -/
theorem C10_save_run_timestamp_frame (mb : Memory.MemoryBank) (dd : PyDict)
    (rs : PyList) (d : PyDict) (t : Int)
    (hd : mb.data = PyVal.dict dd)
    (hr : dictGet dd "runs" = some (PyVal.list rs)) :
    ∃ mb2 : Memory.MemoryBank,
      Memory.MemoryBank.save_run mb (PyVal.dict d) t =
        Except.ok (PyVal.dict (dictSet d "timestamp" (PyVal.int t)), mb2) ∧
      dictGet (dictSet d "timestamp" (PyVal.int t)) "timestamp" = some (PyVal.int t) ∧
      (∀ k, k ≠ "timestamp" →
        dictGet (dictSet d "timestamp" (PyVal.int t)) k = dictGet d k) ∧
      mb2.data = PyVal.dict (dictSet dd "runs"
        (PyVal.list (PyList.ofList (rs.toList ++
          [PyVal.dict (dictSet d "timestamp" (PyVal.int t))])))) := by
  refine ⟨{ data := PyVal.dict (dictSet dd "runs"
              (PyVal.list (PyList.ofList (rs.toList ++
                [PyVal.dict (dictSet d "timestamp" (PyVal.int t))])))),
            file := some (some (PyVal.dict (dictSet dd "runs"
              (PyVal.list (PyList.ofList (rs.toList ++
                [PyVal.dict (dictSet d "timestamp" (PyVal.int t))])))))) },
          ?_, dictGet_dictSet_self d "timestamp" (PyVal.int t),
          fun k hk => dictGet_dictSet_ne d "timestamp" (PyVal.int t) k hk.symm, rfl⟩
  simp only [Memory.MemoryBank.save_run, hd, hr]

/-- The record a caller passes to `save_run` in the C10 witness (it already
carries a stale timestamp, which the save must replace). -/
def c10Rec : PyDict :=
  PyDict.ofAssoc [("role", PyVal.str "x"), ("timestamp", PyVal.int 5)]

/-- Witness for C10 at a concrete bank and record. -/
theorem C10_witness :
    ∃ mb2 : Memory.MemoryBank,
      Memory.MemoryBank.save_run (Memory.MemoryBank.init Option.none) (PyVal.dict c10Rec) 7 =
        Except.ok (PyVal.dict (dictSet c10Rec "timestamp" (PyVal.int 7)), mb2) ∧
      dictGet (dictSet c10Rec "timestamp" (PyVal.int 7)) "timestamp" = some (PyVal.int 7) ∧
      (∀ k, k ≠ "timestamp" →
        dictGet (dictSet c10Rec "timestamp" (PyVal.int 7)) k = dictGet c10Rec k) ∧
      mb2.data = PyVal.dict (dictSet (PyDict.ofAssoc [("runs", plist [])]) "runs"
        (PyVal.list (PyList.ofList (PyList.nil.toList ++
          [PyVal.dict (dictSet c10Rec "timestamp" (PyVal.int 7))])))) :=
  C10_save_run_timestamp_frame (Memory.MemoryBank.init Option.none)
    (PyDict.ofAssoc [("runs", plist [])]) PyList.nil c10Rec 7 rfl rfl

/-! ### Claim C9 -/

/-- Counterexample to claim C9: the scaffold's `MemoryBank`
(`src/interviewforge.py` 39-44) does raise on a store file that is present
but fails to parse — construction is not corruption-tolerant there. -/
theorem C9_counterexample_scaffold_corrupt_raises :
    Forge.MemoryBank.init (some Option.none) = Except.error PyErr.jsonDecodeError := rfl

/-- Claim C9 as amended: `src/memory.py`'s `MemoryBank` initializes to an
empty record list on a missing or unparseable store file, without raising
(construction is total by type); the scaffold's `MemoryBank` tolerates only a
missing file and propagates the parse error when the file exists but is
corrupt. -/
theorem C9_amended_init_tolerance :
    (Memory.MemoryBank.init Option.none).data = Memory.emptyData ∧
    (Memory.MemoryBank.init (some Option.none)).data = Memory.emptyData ∧
    Forge.MemoryBank.init Option.none =
      Except.ok { data := Memory.emptyData, file := Option.none } ∧
    Forge.MemoryBank.init (some Option.none) = Except.error PyErr.jsonDecodeError :=
  ⟨rfl, rfl, rfl, rfl⟩

/-! ### Claim C5 -/

/-- The first contiguous run of digit characters in the text. -/
def takeDigitRun : List Char → List Char
  | [] => []
  | c :: t => if c.isDigit then c :: takeDigitRun t else []

/-- First digit run anywhere in the text. -/
def firstDigitRun : List Char → List Char
  | [] => []
  | c :: t => if c.isDigit then c :: takeDigitRun t else firstDigitRun t

/-- Score extraction exactly as claim C5 words it (for comparison with the
source's behaviour): with "score" in the text (case-insensitive), the first
RUN of digits, at most two of them, read as an integer. -/
def claimFirstRunScore (resp : String) : Option Int :=
  if strContains (lowerStr resp) "score" then
    match firstDigitRun resp.data with
    | [] => Option.none
    | ds => some (digitsToInt (ds.take 2))
  else Option.none

/-- Score extraction as `src/agents.py` 101-111 actually computes it: the
first two DIGIT CHARACTERS found anywhere in the text, concatenated across
runs, read as an integer with no 1-10 restriction; `None` when "score" is
absent or there are no digits. -/
def concatDigitsScore (resp : String) : Option Int :=
  if strContains (lowerStr resp) "score" then
    match resp.data.filter Char.isDigit with
    | [] => Option.none
    | ds => some (digitsToInt (ds.take 2))
  else Option.none

/-- A capability whose critique response is the stub text `"Score: 6/10."`. -/
def llmScore610 : String → Option String := fun _ => some "Score: 6/10."

/-- Counterexample to claim C5: on the response `"Score: 6/10."` the code
extracts `61` (the first two digit characters, across runs), not the
first-run value `6`, and `61` is not an integer between 1 and 10. -/
theorem C5_counterexample_score_concat :
    dictGet (Agents.CritiqueAgent.critique llmScore610 "q" "a" (pdict [])) "score" =
      some (PyVal.int 61) ∧
    claimFirstRunScore "Score: 6/10." = some 6 ∧
    (61 : Int) ≠ 6 ∧
    ¬(1 ≤ (61 : Int) ∧ (61 : Int) ≤ 10) :=
  ⟨rfl, rfl, by decide, by decide⟩

/-- Claim C5 as amended: for any present critique response, the stored score
is `concatDigitsScore` of the text — the integer formed by the first two
digit characters found anywhere in the text (concatenated across digit runs,
with no restriction to 1-10); it is null when the text contains "score" but
no digits, and null when "score" does not occur. -/
theorem C5_amended_score_extraction (llm : String → Option String)
    (q a : String) (pv : PyVal) (resp : String)
    (hresp : llm (Agents.critiquePrompt q a pv) = some resp) :
    dictGet (Agents.CritiqueAgent.critique llm q a pv) "score" =
      some (match concatDigitsScore resp with
            | Option.none => PyVal.none
            | some n => PyVal.int n) := by
  unfold Agents.CritiqueAgent.critique concatDigitsScore
  rw [hresp]
  cases hsc : strContains (lowerStr resp) "score" with
  | false => simp only [hsc]; rfl
  | true =>
      simp only [hsc]
      cases hds : resp.data.filter Char.isDigit with
      | nil => rfl
      | cons c t => rfl

/-- Witness for C5 (amended) at the concrete critique stub response. -/
theorem C5_witness :
    dictGet (Agents.CritiqueAgent.critique llmScore610 "q2" "a2" (pdict [])) "score" =
      some (match concatDigitsScore "Score: 6/10." with
            | Option.none => PyVal.none
            | some n => PyVal.int n) :=
  C5_amended_score_extraction llmScore610 "q2" "a2" (pdict []) "Score: 6/10." rfl

/-! ### Claim C6 -/

/-- The fallback critique dict of `CritiqueAgent.critique` when the
capability is absent. -/
def noCritiqueDict : PyDict :=
  PyDict.ofAssoc [("raw", PyVal.none), ("score", PyVal.none),
                  ("feedback", PyVal.str "No critique generated.")]

/-- Python `str()` of `noCritiqueDict`:
`{'raw': None, 'score': None, 'feedback': 'No critique generated.'}`. -/
def noCritiqueReprString : String :=
  "\x7b" ++ pq ++ "raw" ++ pq ++ ": None, " ++ pq ++ "score" ++ pq ++ ": None, " ++
    pq ++ "feedback" ++ pq ++ ": " ++ pq ++ "No critique generated." ++ pq ++ "\x7d"

example : pyStr (PyVal.dict noCritiqueDict) = noCritiqueReprString := rfl

/-- The critiques-list entry the canonical absent-capability run persists. -/
def demoCritiqueEntry : PyVal :=
  pdict [("question", PyVal.str "Describe project X."),
         ("answer", PyVal.str "Demo answer for: Describe project X."),
         ("critique", PyVal.str noCritiqueReprString)]

/-- Counterexample to claim C6: in the absent-capability run, the persisted
critiques list holds `{"question", "answer", "critique"}` records whose
`critique` field is the stringified agent dict — the entry has NO `score`
field (so no null score is observable) and no `feedback` field; the feedback
text survives only inside the `critique` string. -/
theorem C6_counterexample_persisted_critique :
    ∃ s bank2, demoRun = Except.ok (s, bank2) ∧
      pvGet s "critiques" = some (plist [demoCritiqueEntry]) ∧
      pvGet demoCritiqueEntry "score" = Option.none ∧
      pvGet demoCritiqueEntry "feedback" = Option.none ∧
      pvGet demoCritiqueEntry "critique" = some (PyVal.str noCritiqueReprString) :=
  ⟨demoRunPair.1, demoRunPair.2, rfl, rfl, rfl, rfl, rfl⟩

/-- Claim C6 as amended: with the critique capability absent, the agent
itself returns `{raw: None, score: None, feedback: "No critique generated."}`,
and the orchestrator persists each critique as the `str()` of that mapping in
the `critique` field of a `{"question", "answer", "critique"}` record — the
null score and the feedback text are observable only inside that string. -/
theorem C6_amended_stringified_critique (llm : String → Option String)
    (profile : PyDict) (q a : String)
    (habs : llm (Agents.critiquePrompt q a (PyVal.dict profile)) = Option.none) :
    Agents.CritiqueAgent.critique llm q a (PyVal.dict profile) = noCritiqueDict ∧
    Pipeline.critiqueText llm profile (q, a) = noCritiqueReprString := by
  have h1 : Agents.CritiqueAgent.critique llm q a (PyVal.dict profile) = noCritiqueDict := by
    unfold Agents.CritiqueAgent.critique
    rw [habs]
    rfl
  refine ⟨h1, ?_⟩
  unfold Pipeline.critiqueText
  rw [h1]
  rfl

/-- Witness for C6 (amended) at a concrete absent capability. -/
theorem C6_witness :
    Agents.CritiqueAgent.critique llmNone "qw" "aw" (PyVal.dict PyDict.nil) = noCritiqueDict ∧
    Pipeline.critiqueText llmNone PyDict.nil ("qw", "aw") = noCritiqueReprString :=
  C6_amended_stringified_critique llmNone PyDict.nil "qw" "aw" rfl

/-! ### Claim C7 -/

/-- The profile the absent-capability run builds: the `ResumeAgent.parse`
absence fallback plus the `setdefault` name. -/
def demoProfileDict : PyDict :=
  PyDict.ofAssoc [("raw", PyVal.none), ("text_preview", PyVal.str "Name: Jane"),
                  ("name", PyVal.str "Candidate")]

/-- Counterexample to claim C7: the end-to-end absent-capability run's
profile is NOT exactly `{name: "Candidate"}` — it also carries the `raw` and
`text_preview` fields of the parse-stage absence fallback (three fields in
total). -/
theorem C7_counterexample_profile_extra_fields :
    ∃ s bank2, demoRun = Except.ok (s, bank2) ∧
      pvGet s "profile" = some (PyVal.dict demoProfileDict) ∧
      dictGet demoProfileDict "text_preview" = some (PyVal.str "Name: Jane") ∧
      demoProfileDict.size = 3 ∧
      pvGet s "profile" ≠ some (pdict [("name", PyVal.str "Candidate")]) := by
  refine ⟨demoRunPair.1, demoRunPair.2, rfl, rfl, rfl, rfl, fun h => ?_⟩
  have h2 := congrArg (fun o => match o with
    | some (PyVal.dict d2) => d2.size
    | _ => 0) h
  have h3 : (3 : Nat) = 1 := h2
  exact absurd h3 (by decide)

/-- Claim C7 as amended: for the end-to-end run with resume text
`"Name: Jane"`, role `"Data Scientist"` and the capability always absent, the
final summary's profile equals exactly
`{raw: None, text_preview: "Name: Jane", name: "Candidate"}`: the `name`
comes from the `setdefault` fallback (not from parsing `"Jane"` out of the
raw text), and the absence path of `ResumeAgent.parse` also records `raw:
None` and the 300-character text preview. -/
theorem C7_amended_profile_fallback_fields (now : Int) :
    ∃ s bank2,
      Pipeline.Orchestrator.run llmNone Agents.demoAnswer
        (Memory.MemoryBank.init Option.none) now "Name: Jane" "Data Scientist" =
        Except.ok (s, bank2) ∧
      pvGet s "profile" = some (PyVal.dict demoProfileDict) ∧
      dictGet demoProfileDict "name" = some (PyVal.str "Candidate") :=
  ⟨_, _, rfl, rfl, rfl⟩

/-! ### Claim C1 -/

/-- A capability that answers the rounds-stage prompt (and only it) with the
valid JSON document `"[]"` — a successfully decoded list — and signals
absence everywhere else. -/
def llmRoundsList : String → Option String := fun p =>
  if strHeadMatch p "Generate interview rounds" then some "[]" else Option.none

/-- Claim C1 fails on the code: when the round-generation stage successfully
JSON-decodes its response to a list (here `[]`), `Orchestrator.run` raises
`AttributeError` at `rounds.items()` (`src/pipeline.py` 87) — a
non-persistence error escaping `run`, against the stated failure policy. -/
theorem C1_rounds_list_attribute_error :
    Pipeline.Orchestrator.run llmRoundsList Agents.demoAnswer
      (Memory.MemoryBank.init Option.none) 0 "Name: Jane" "Data Scientist" =
      Except.error PyErr.attributeError ∧
    PyErr.attributeError ≠ PyErr.persistenceError :=
  ⟨rfl, by decide⟩

/-! ### Claim C8 -/

/-- Three prior checkpoint snapshots for the resumption scenario. -/
def c8Checkpoints : List PyVal :=
  [pdict [("q_index", PyVal.int 1)], pdict [("q_index", PyVal.int 2)],
   pdict [("q_index", PyVal.int 3)]]

/-- A session seeded through `_restore_checkpoint` with 3 prior answers,
cursor 3, and the 3 checkpoints. -/
def c8Session : Forge.InMemorySession :=
  Forge.restore_checkpoint (Forge.InMemorySession.init "run-1")
    (some ["a1", "a2", "a3"]) 3 (some c8Checkpoints)

/-- One round of four questions; under claim C8 the interview should resume
at the 4th. -/
def c8Rounds : List Forge.IRound :=
  [{ round := "technical", focus := "algorithms", questions := ["q1", "q2", "q3", "q4"] }]

/-- The conduct result on the seeded session (demo answers, clock 0). -/
def c8Result : Forge.InMemorySession × List Forge.QAPair :=
  Forge.InterviewAgent.conduct Forge.demoAnswerTo 0 c8Session c8Rounds

/-- Claim C8 fails on the code: the session is restored (cursor 3, answers
and checkpoints in place), yet `InterviewAgent.conduct` ignores
`current_q_index` and asks every question from index 0 — the first question
asked is `"q1"`, not `"q4"`; all four are re-asked; the transcript's entries
are all fresh demo answers (its first entry is not the checkpointed `"a1"`),
and the four fresh answers are appended after the three restored ones. -/
theorem C8_conduct_restarts_from_zero :
    c8Session.current_q_index = 3 ∧
    c8Session.answers = ["a1", "a2", "a3"] ∧
    c8Session.checkpoints.length = 3 ∧
    c8Result.2.map Forge.QAPair.question = ["q1", "q2", "q3", "q4"] ∧
    c8Result.2.map Forge.QAPair.answer =
      ["Demo answer to: q1", "Demo answer to: q2", "Demo answer to: q3",
       "Demo answer to: q4"] ∧
    (c8Result.2.head?.map Forge.QAPair.question) = some "q1" ∧
    "q1" ≠ "q4" ∧
    (c8Result.2.head?.map Forge.QAPair.answer) = some "Demo answer to: q1" ∧
    "Demo answer to: q1" ≠ "a1" ∧
    c8Result.1.answers =
      ["a1", "a2", "a3", "Demo answer to: q1", "Demo answer to: q2",
       "Demo answer to: q3", "Demo answer to: q4"] :=
  ⟨rfl, rfl, rfl, rfl, rfl, rfl, by decide, rfl, by decide, rfl⟩
